import Mathlib

/-!
Verification of the `sorteo` prize-draw server.

The development shallowly embeds the three server variants of the repository:

* `src/server.js` (Postgres): token pool `prize_tokens`, atomic one-row claim
  (`tryClaimPrize`), winners registry with `ON CONFLICT DO NOTHING`, and the
  claim+register pair wrapped in a `BEGIN`/`COMMIT` transaction.
* `src/unnamed/part_001` (MySQL): same draw pipeline, atomic one-row claim via
  `UPDATE ... WHERE claimed_by IS NULL LIMIT 1`, `INSERT IGNORE` registry,
  but no transaction around the claim+register pair.
* `src/unnamed/part_002` (Postgres, divergent variant): no token pool; a single
  `winners(device_id UNIQUE, won)` table, a count-based cap, and a plain
  `INSERT` that records the outcome of every completed request.

Database state is modelled as explicit immutable values; each SQL statement
becomes a pure function on that state.  Concurrency is modelled by arbitrary
serializations of the atomic store operations (the store executes each atomic
statement indivisibly, so any interleaving is equivalent to some sequential
order of those operations).  Randomness (`Math.random()`) is an explicit
rational input `r`, compared against the win rate exactly as the code does.
-/

namespace Sorteo

/-- Decidable equality of `Except` responses (core provides no instance). -/
instance {ε α : Type} [DecidableEq ε] [DecidableEq α] : DecidableEq (Except ε α)
  | Except.error e1, Except.error e2 => decidable_of_iff (e1 = e2) (by simp)
  | Except.error _, Except.ok _ => Decidable.isFalse (by simp)
  | Except.ok _, Except.error _ => Decidable.isFalse (by simp)
  | Except.ok a1, Except.ok a2 => decidable_of_iff (a1 = a2) (by simp)

/-- One row of the `prize_tokens` table (schema in `src/unnamed/part_000`):
`id serial PRIMARY KEY, claimed_by text NULL, claimed_at timestamptz NULL`. -/
structure PrizeToken where
  id : Nat
  claimedBy : Option String
  claimedAt : Option Nat
deriving Repr, DecidableEq

/-- Database state of the token-pool variants (`src/server.js`,
`src/unnamed/part_001`): the `prize_tokens` rows and the `winners` rows
(keyed by `device_id`, which is the primary key, so a plain list of ids). -/
structure DB where
  prize_tokens : List PrizeToken
  winners : List String
deriving Repr, DecidableEq

/-- The `reason` strings that appear in draw responses. -/
inductive Reason where
  | already_winner
  | no_prizes_left
deriving Repr, DecidableEq

/-- Body of a successful (`ok:true`) draw response of `src/server.js` /
`src/unnamed/part_001`: `{ won, reason?, remaining }`. -/
structure DrawResult where
  won : Bool
  reason : Option Reason
  remaining : Nat
deriving Repr, DecidableEq

/-- Number of free tokens in a row list:
`SELECT COUNT(*) FROM prize_tokens WHERE claimed_by IS NULL`. -/
def freeCount (ts : List PrizeToken) : Nat :=
  (ts.filter fun t => t.claimedBy = none).length

/-- `getRemainingPrizes` from `src/server.js` lines 52-57. -/
def getRemainingPrizes (db : DB) : Nat :=
  freeCount db.prize_tokens

/-- `hasWonBefore` from `src/server.js` lines 59-65:
`SELECT 1 FROM winners WHERE device_id = $1 LIMIT 1`. -/
def hasWonBefore (db : DB) (deviceId : String) : Bool :=
  db.winners.contains deviceId

/-- The row-update of `tryClaimPrize`: pick one free row (the SQL picks an
arbitrary free row; serialized here as the first free row) and set
`claimed_by = deviceId, claimed_at = now()`.  Returns `none` when no free
row exists. -/
def claimFirstFree : List PrizeToken → String → Nat → Option (List PrizeToken)
  | [], _, _ => none
  | t :: ts, d, now =>
    if t.claimedBy = none then
      some ({ t with claimedBy := some d, claimedAt := some now } :: ts)
    else
      match claimFirstFree ts d now with
      | some ts' => some (t :: ts')
      | none => none

/-- `tryClaimPrize` from `src/server.js` lines 72-89 (and its MySQL twin in
`src/unnamed/part_001` lines 74-80): atomically claim one free token; the
boolean is `rows.length === 1` / `affectedRows === 1`. -/
def tryClaimPrize (db : DB) (deviceId : String) (now : Nat) : Bool × DB :=
  match claimFirstFree db.prize_tokens deviceId now with
  | some ts => (true, { db with prize_tokens := ts })
  | none => (false, db)

/-- The winners insert of `src/server.js` lines 142-145:
`INSERT INTO winners (device_id) VALUES ($1) ON CONFLICT (device_id) DO NOTHING`
(`INSERT IGNORE` in `src/unnamed/part_001`). -/
def recordWin (db : DB) (deviceId : String) : DB :=
  if db.winners.contains deviceId then db
  else { db with winners := db.winners ++ [deviceId] }

/-- `DEFAULT_WIN_RATE` from `src/server.js` line 11:
`Number(process.env.DEFAULT_WIN_RATE || 0.15)` — configurable, nominally 0.15
(the decimal literal `0.15` is the rational 15/100). -/
def DEFAULT_WIN_RATE : ℚ := mkRat 15 100

/-- Rate resolution from `src/server.js` line 116:
`Number.isFinite(Number(winRate)) ? Number(winRate) : DEFAULT_WIN_RATE`.
`some q` models a request whose `winRate` coerces to a finite number `q`;
`none` models an absent or non-numeric `winRate`. -/
def resolveRate (winRate : Option ℚ) : ℚ :=
  winRate.getD DEFAULT_WIN_RATE

/-- The draw pipeline of `src/server.js` lines 119-149 (identical control flow
in `src/unnamed/part_001` lines 116-152), after deviceId validation:
1. already-winner short circuit; 2. random gate `Math.random() < rate`
(the random value is the explicit input `r`); 3. atomic claim;
4. idempotent winner insert; then the response. -/
def draw (db : DB) (deviceId : String) (r rate : ℚ) (now : Nat) : DrawResult × DB :=
  if hasWonBefore db deviceId then
    ({ won := false, reason := some Reason.already_winner,
       remaining := getRemainingPrizes db }, db)
  else if r < rate then
    if (tryClaimPrize db deviceId now).1 then
      ({ won := true, reason := none,
         remaining := getRemainingPrizes (recordWin (tryClaimPrize db deviceId now).2 deviceId) },
       recordWin (tryClaimPrize db deviceId now).2 deviceId)
    else
      ({ won := false, reason := some Reason.no_prizes_left, remaining := 0 },
       (tryClaimPrize db deviceId now).2)
  else
    ({ won := false, reason := none, remaining := getRemainingPrizes db }, db)

/-- One request to `POST /api/draw`. -/
structure DrawReq where
  deviceId : String
  winRate : Option ℚ
  r : ℚ
  now : Nat

/-- The full `/api/draw` handler of `src/server.js` lines 110-149: deviceId
validation (`!deviceId || typeof deviceId !== "string"` modelled as the empty
string) then the draw pipeline.  `Except.error` is the `ok:false` response. -/
def handleDraw (db : DB) (q : DrawReq) : Except String DrawResult × DB :=
  if q.deviceId = "" then (Except.error "deviceId requerido", db)
  else
    (Except.ok (draw db q.deviceId q.r (resolveRate q.winRate) q.now).1,
     (draw db q.deviceId q.r (resolveRate q.winRate) q.now).2)

/-- A serialized sequence of draw requests against one shared store. -/
def runDraws : DB → List DrawReq → List (Except String DrawResult) × DB
  | db, [] => ([], db)
  | db, q :: qs =>
    ((handleDraw db q).1 :: (runDraws (handleDraw db q).2 qs).1,
     (runDraws (handleDraw db q).2 qs).2)

/-- Whether a response reports `won:true`. -/
def isWin : Except String DrawResult → Bool
  | Except.ok res => res.won
  | Except.error _ => false

/-- Number of responses in a trace that report `won:true`. -/
def countWins (rs : List (Except String DrawResult)) : Nat :=
  rs.countP isWin

/-- A serialized sequence of bare `claimOne` attempts (one `tryClaimPrize`
per identity, in the given serialization order). -/
def runClaims : DB → Nat → List String → List Bool × DB
  | db, _, [] => ([], db)
  | db, now, d :: ds =>
    ((tryClaimPrize db d now).1 :: (runClaims (tryClaimPrize db d now).2 now ds).1,
     (runClaims (tryClaimPrize db d now).2 now ds).2)

/-- The seeded database of `src/unnamed/part_000`: `n` free tokens
(`claimed_by NULL, claimed_at NULL`), empty winners table. -/
def initialDB (n : Nat) : DB :=
  { prize_tokens := (List.range n).map fun i => { id := i + 1, claimedBy := none, claimedAt := none },
    winners := [] }

/-! ### Fallible execution of the claim+register sequence

`src/server.js` lines 133-153 run `tryClaimPrize` and the winners insert
between `BEGIN` and `COMMIT`; any exception reaches the catch block, which
issues `ROLLBACK`, so per the store's transaction semantics none of the
buffered writes are published and the caller receives a 500
`internal_error`.  `src/unnamed/part_001` lines 135-156 run the same two
statements with no transaction: each statement auto-commits as soon as it
executes.  A failure schedule says which statement of the sequence throws. -/

/-- Which store operations of the claim+register sequence fail. -/
structure FailSpec where
  failClaim : Bool
  failInsert : Bool
  failCommit : Bool
deriving Repr, DecidableEq

/-- The `/api/draw` pipeline of `src/server.js` under a failure schedule.
The claim and the winners insert execute inside the `BEGIN`/`COMMIT`
transaction; a failure of either statement (or of `COMMIT`) aborts to the
catch block: `ROLLBACK` discards every buffered write, and the response is
the 500 `internal_error`.  The second component is the published database
state after the request. -/
def drawServerTx (db : DB) (deviceId : String) (r rate : ℚ) (now : Nat) (f : FailSpec) :
    Except String DrawResult × DB :=
  if hasWonBefore db deviceId then
    (Except.ok { won := false, reason := some Reason.already_winner,
                 remaining := getRemainingPrizes db }, db)
  else if r < rate then
    if f.failClaim then (Except.error "internal_error", db)
    else if (tryClaimPrize db deviceId now).1 then
      if f.failInsert then (Except.error "internal_error", db)
      else if f.failCommit then (Except.error "internal_error", db)
      else
        (Except.ok { won := true, reason := none,
                     remaining := getRemainingPrizes (recordWin (tryClaimPrize db deviceId now).2 deviceId) },
         recordWin (tryClaimPrize db deviceId now).2 deviceId)
    else
      (Except.ok { won := false, reason := some Reason.no_prizes_left, remaining := 0 }, db)
  else
    (Except.ok { won := false, reason := none, remaining := getRemainingPrizes db }, db)

/-- The `/api/draw` pipeline of `src/unnamed/part_001` under a failure
schedule.  There is no transaction: the claim `UPDATE` is published the
moment it executes, so a failure of the subsequent `INSERT IGNORE` leaves
the claimed token in the database while the catch block returns the 500
`internal_error`.  (`failCommit` is meaningless here — nothing commits.) -/
def drawMysql (db : DB) (deviceId : String) (r rate : ℚ) (now : Nat) (f : FailSpec) :
    Except String DrawResult × DB :=
  if hasWonBefore db deviceId then
    (Except.ok { won := false, reason := some Reason.already_winner,
                 remaining := getRemainingPrizes db }, db)
  else if r < rate then
    if f.failClaim then (Except.error "internal_error", db)
    else if (tryClaimPrize db deviceId now).1 then
      if f.failInsert then (Except.error "internal_error", (tryClaimPrize db deviceId now).2)
      else
        (Except.ok { won := true, reason := none,
                     remaining := getRemainingPrizes (recordWin (tryClaimPrize db deviceId now).2 deviceId) },
         recordWin (tryClaimPrize db deviceId now).2 deviceId)
    else
      (Except.ok { won := false, reason := some Reason.no_prizes_left, remaining := 0 },
       (tryClaimPrize db deviceId now).2)
  else
    (Except.ok { won := false, reason := none, remaining := getRemainingPrizes db }, db)

/-! ### The divergent variant `src/unnamed/part_002`

No token pool: a single table
`winners (id SERIAL, device_id TEXT UNIQUE NOT NULL, won BOOLEAN NOT NULL)`
records the outcome of every completed request, and the cap is enforced by
counting `won = true` rows against the constant `MAX_PRIZES = 10`. -/

/-- One row of part_002's `winners` table (the serial `id` plays no role). -/
structure WinnerRow where
  device_id : String
  won : Bool
deriving Repr, DecidableEq

/-- Database state of the part_002 variant. -/
structure DB2 where
  winners : List WinnerRow
deriving Repr, DecidableEq

/-- `MAX_PRIZES` from `src/unnamed/part_002` line 57. -/
def MAX_PRIZES : Nat := 10

/-- The win chance hard-coded at `src/unnamed/part_002` line 99:
`Math.random() < 0.3` (the decimal literal `0.3` is the rational 3/10). -/
def winChanceP2 : ℚ := mkRat 3 10

/-- Body of an `ok:true` response of the part_002 variant. -/
structure P2Body where
  won : Bool
  reason : Option Reason
  remaining : Nat
deriving Repr, DecidableEq

/-- `countWinners` from `src/unnamed/part_002` lines 118-121:
`SELECT COUNT(*) FROM winners WHERE won = true`. -/
def countWinners (db : DB2) : Nat :=
  (db.winners.filter fun row => row.won).length

/-- The plain `INSERT INTO winners(device_id, won) VALUES($1, $2)` of
`src/unnamed/part_002` (lines 86-89 and 102-105).  `device_id` is declared
`UNIQUE`, so inserting a second row for the same identity raises a
unique-constraint violation, modelled as `none`. -/
def insertWinnerP2 (ws : List WinnerRow) (deviceId : String) (w : Bool) :
    Option (List WinnerRow) :=
  if (ws.find? fun row => row.device_id = deviceId).isSome then none
  else some (ws ++ [{ device_id := deviceId, won := w }])

/-- The `/api/draw` handler of `src/unnamed/part_002` lines 60-116:
deviceId validation, prior-row lookup (echoing the stored `won` with reason
`already_winner`), count-based cap check (inserting a `won:false` row when
the cap is reached), then the fixed 0.3 gate and an insert recording the
outcome.  `Except.error` is the `ok:false` response of the catch block /
validation. -/
def part002draw (db : DB2) (deviceId : String) (r : ℚ) : Except String P2Body × DB2 :=
  if deviceId = "" then (Except.error "Falta deviceId", db)
  else
    match db.winners.find? fun row => row.device_id = deviceId with
    | some row =>
        (Except.ok { won := row.won, reason := some Reason.already_winner,
                     remaining := MAX_PRIZES - countWinners db }, db)
    | none =>
        if MAX_PRIZES ≤ countWinners db then
          match insertWinnerP2 db.winners deviceId false with
          | some ws =>
              (Except.ok { won := false, reason := some Reason.no_prizes_left,
                           remaining := 0 }, { winners := ws })
          | none => (Except.error "Error en servidor", db)
        else
          match insertWinnerP2 db.winners deviceId (decide (r < winChanceP2)) with
          | some ws =>
              (Except.ok { won := decide (r < winChanceP2), reason := none,
                           remaining := MAX_PRIZES - countWinners { winners := ws } },
               { winners := ws })
          | none => (Except.error "Error en servidor", db)

/-! ### Concrete states used to instantiate the theorems -/

/-- A pool with a single free token and no winners. -/
def dbOneFree : DB :=
  { prize_tokens := [{ id := 1, claimedBy := none, claimedAt := none }], winners := [] }

/-- An exhausted pool: no tokens at all. -/
def dbNoTokens : DB :=
  { prize_tokens := [], winners := [] }

/-- One free token, and `d1` already registered as a winner. -/
def dbWithWinner : DB :=
  { prize_tokens := [{ id := 1, claimedBy := none, claimedAt := none }], winners := ["d1"] }

/-- A token already claimed by `w1` next to a free token. -/
def dbClaimed : DB :=
  { prize_tokens := [{ id := 1, claimedBy := some "w1", claimedAt := some 0 },
                     { id := 2, claimedBy := none, claimedAt := none }],
    winners := ["w1"] }

/-- part_002 state: empty winners table. -/
def dbP2Empty : DB2 := { winners := [] }

/-- part_002 state: `d1` already recorded with `won = true`. -/
def dbP2PriorWinner : DB2 := { winners := [{ device_id := "d1", won := true }] }

/-! ### Lemmas -/


theorem freeCount_cons (t : PrizeToken) (ts : List PrizeToken) :
    freeCount (t :: ts) = (if t.claimedBy = none then 1 else 0) + freeCount ts := by
  simp only [freeCount, List.filter_cons]
  split
  · simp_all
    omega
  · simp_all

theorem claimFirstFree_none_iff (d : String) (now : Nat) :
    ∀ ts : List PrizeToken, claimFirstFree ts d now = none ↔ freeCount ts = 0 := by
  intro ts
  induction ts with
  | nil => simp [claimFirstFree, freeCount]
  | cons t ts ih =>
    rw [freeCount_cons]
    by_cases hc : t.claimedBy = none
    · simp [claimFirstFree, hc]
    · rw [if_neg hc]
      simp only [claimFirstFree, if_neg hc]
      cases h : claimFirstFree ts d now with
      | none => simpa using ih.mp h
      | some us =>
        simp only []
        constructor
        · intro hc2; exact absurd hc2 (by simp)
        · intro h0
          rw [ih.mpr (by omega)] at h
          exact absurd h (by simp)

theorem claimFirstFree_freeCount (d : String) (now : Nat) :
    ∀ (ts ts' : List PrizeToken), claimFirstFree ts d now = some ts' →
      freeCount ts' + 1 = freeCount ts := by
  intro ts
  induction ts with
  | nil => intro ts' h; simp [claimFirstFree] at h
  | cons t ts ih =>
    intro ts' h
    by_cases hc : t.claimedBy = none
    · simp only [claimFirstFree, if_pos hc] at h
      cases h
      rw [freeCount_cons, freeCount_cons]
      simp only [hc, if_pos]
      simp
      omega
    · simp only [claimFirstFree, if_neg hc] at h
      cases hrec : claimFirstFree ts d now with
      | none => rw [hrec] at h; exact absurd h (by simp)
      | some us =>
        rw [hrec] at h
        cases h
        rw [freeCount_cons, freeCount_cons, if_neg hc]
        have := ih us hrec
        omega

theorem claimFirstFree_spec (d : String) (now : Nat) :
    ∀ (ts ts' : List PrizeToken), claimFirstFree ts d now = some ts' →
    ∃ (i : Nat) (t : PrizeToken), ts[i]? = some t ∧ t.claimedBy = none ∧
      ts'[i]? = some { t with claimedBy := some d, claimedAt := some now } ∧
      ∀ j, j ≠ i → ts'[j]? = ts[j]? := by
  intro ts
  induction ts with
  | nil => intro ts' h; simp [claimFirstFree] at h
  | cons t ts ih =>
    intro ts' h
    by_cases hc : t.claimedBy = none
    · simp only [claimFirstFree, if_pos hc] at h
      cases h
      refine ⟨0, t, by simp, hc, by simp, ?_⟩
      intro j hj
      cases j with
      | zero => exact absurd rfl hj
      | succ k => simp
    · simp only [claimFirstFree, if_neg hc] at h
      cases hrec : claimFirstFree ts d now with
      | none => rw [hrec] at h; exact absurd h (by simp)
      | some us =>
        rw [hrec] at h
        cases h
        obtain ⟨i, tok, h1, h2, h3, h4⟩ := ih us hrec
        refine ⟨i + 1, tok, by simpa using h1, h2, by simpa using h3, ?_⟩
        intro j hj
        cases j with
        | zero => simp
        | succ k =>
          have hk : k ≠ i := fun hk => hj (by rw [hk])
          simpa using h4 k hk



theorem tryClaimPrize_of_zero (db : DB) (d : String) (now : Nat)
    (h : getRemainingPrizes db = 0) : tryClaimPrize db d now = (false, db) := by
  unfold tryClaimPrize
  rw [(claimFirstFree_none_iff d now db.prize_tokens).mpr h]

theorem tryClaimPrize_of_pos (db : DB) (d : String) (now : Nat)
    (h : 0 < getRemainingPrizes db) :
    (tryClaimPrize db d now).1 = true ∧
    getRemainingPrizes (tryClaimPrize db d now).2 + 1 = getRemainingPrizes db := by
  unfold tryClaimPrize
  cases hcf : claimFirstFree db.prize_tokens d now with
  | none =>
    have hz := (claimFirstFree_none_iff d now db.prize_tokens).mp hcf
    exact absurd h (by simp [getRemainingPrizes, hz])
  | some ts =>
    exact ⟨rfl, claimFirstFree_freeCount d now db.prize_tokens ts hcf⟩

theorem tryClaimPrize_true_iff (db : DB) (d : String) (now : Nat) :
    (tryClaimPrize db d now).1 = true ↔ 0 < getRemainingPrizes db := by
  constructor
  · intro h
    by_contra hn
    have hz : getRemainingPrizes db = 0 := by omega
    rw [tryClaimPrize_of_zero db d now hz] at h
    exact absurd h (by simp)
  · intro h
    exact (tryClaimPrize_of_pos db d now h).1

theorem tryClaimPrize_false_iff (db : DB) (d : String) (now : Nat) :
    (tryClaimPrize db d now).1 = false ↔ getRemainingPrizes db = 0 := by
  rw [← Bool.not_eq_true, tryClaimPrize_true_iff]
  omega

theorem tryClaimPrize_false_state (db : DB) (d : String) (now : Nat)
    (h : (tryClaimPrize db d now).1 = false) : (tryClaimPrize db d now).2 = db := by
  rw [tryClaimPrize_of_zero db d now ((tryClaimPrize_false_iff db d now).mp h)]

theorem tryClaimPrize_winners (db : DB) (d : String) (now : Nat) :
    (tryClaimPrize db d now).2.winners = db.winners := by
  unfold tryClaimPrize
  cases claimFirstFree db.prize_tokens d now with
  | none => rfl
  | some ts => rfl

theorem tryClaimPrize_preserves (db : DB) (d : String) (now : Nat) (i : Nat)
    (t : PrizeToken) (x : String)
    (hget : db.prize_tokens[i]? = some t) (hx : t.claimedBy = some x) :
    (tryClaimPrize db d now).2.prize_tokens[i]? = some t := by
  unfold tryClaimPrize
  cases hcf : claimFirstFree db.prize_tokens d now with
  | none => exact hget
  | some ts =>
    obtain ⟨j, tok, h1, h2, h3, h4⟩ := claimFirstFree_spec d now db.prize_tokens ts hcf
    by_cases hij : i = j
    · subst hij
      rw [hget] at h1
      cases h1
      rw [hx] at h2
      exact absurd h2 (by simp)
    · show ts[i]? = some t
      rw [h4 i hij]
      exact hget

theorem tryClaimPrize_transition (db : DB) (d : String) (now : Nat)
    (h : (tryClaimPrize db d now).1 = true) :
    ∃ (i : Nat) (t : PrizeToken), db.prize_tokens[i]? = some t ∧ t.claimedBy = none ∧
      (tryClaimPrize db d now).2.prize_tokens[i]? =
        some { t with claimedBy := some d, claimedAt := some now } ∧
      (∀ j, j ≠ i → (tryClaimPrize db d now).2.prize_tokens[j]? = db.prize_tokens[j]?) ∧
      (tryClaimPrize db d now).2.winners = db.winners := by
  unfold tryClaimPrize at h ⊢
  cases hcf : claimFirstFree db.prize_tokens d now with
  | none => rw [hcf] at h; exact absurd h (by simp)
  | some ts =>
    obtain ⟨i, t, h1, h2, h3, h4⟩ := claimFirstFree_spec d now db.prize_tokens ts hcf
    exact ⟨i, t, h1, h2, h3, fun j hj => h4 j hj, rfl⟩

theorem recordWin_tokens (db : DB) (d : String) :
    (recordWin db d).prize_tokens = db.prize_tokens := by
  unfold recordWin
  split
  · rfl
  · rfl

theorem getRemainingPrizes_recordWin (db : DB) (d : String) :
    getRemainingPrizes (recordWin db d) = getRemainingPrizes db := by
  unfold getRemainingPrizes
  rw [recordWin_tokens]



theorem draw_step (db : DB) (d : String) (r rate : ℚ) (now : Nat) :
    ((draw db d r rate now).1.won = true ∧
      getRemainingPrizes (draw db d r rate now).2 + 1 = getRemainingPrizes db)
  ∨ ((draw db d r rate now).1.won = false ∧ (draw db d r rate now).2 = db) := by
  unfold draw
  by_cases h1 : hasWonBefore db d = true
  · rw [if_pos h1]
    right
    exact ⟨rfl, rfl⟩
  · rw [if_neg h1]
    by_cases h2 : r < rate
    · rw [if_pos h2]
      by_cases h3 : (tryClaimPrize db d now).1 = true
      · rw [if_pos h3]
        left
        refine ⟨rfl, ?_⟩
        show getRemainingPrizes (recordWin (tryClaimPrize db d now).2 d) + 1 = _
        rw [getRemainingPrizes_recordWin]
        exact (tryClaimPrize_of_pos db d now ((tryClaimPrize_true_iff db d now).mp h3)).2
      · rw [if_neg h3]
        right
        exact ⟨rfl, tryClaimPrize_false_state db d now (by simpa using h3)⟩
    · rw [if_neg h2]
      right
      exact ⟨rfl, rfl⟩



theorem handleDraw_step (db : DB) (q : DrawReq) :
    (isWin (handleDraw db q).1 = true ∧
      getRemainingPrizes (handleDraw db q).2 + 1 = getRemainingPrizes db)
  ∨ (isWin (handleDraw db q).1 = false ∧ (handleDraw db q).2 = db) := by
  unfold handleDraw
  by_cases hv : q.deviceId = ""
  · rw [if_pos hv]
    right
    exact ⟨rfl, rfl⟩
  · rw [if_neg hv]
    rcases draw_step db q.deviceId q.r (resolveRate q.winRate) q.now with ⟨hw, hr⟩ | ⟨hw, hr⟩
    · left
      exact ⟨hw, hr⟩
    · right
      exact ⟨hw, hr⟩

theorem runDraws_wins_le : ∀ (reqs : List DrawReq) (db : DB),
    countWins (runDraws db reqs).1 ≤ getRemainingPrizes db
  | [], db => by simp [runDraws, countWins]
  | q :: qs, db => by
    have ih := runDraws_wins_le qs (handleDraw db q).2
    simp only [runDraws, countWins, List.countP_cons] at ih ⊢
    rcases handleDraw_step db q with ⟨hw, hr⟩ | ⟨hw, hr⟩
    · rw [hw]
      simp only [if_pos]
      omega
    · rw [hr] at ih
      rw [hw, hr]
      simpa using ih

theorem remaining_initialDB (n : Nat) : getRemainingPrizes (initialDB n) = n := by
  show freeCount ((List.range n).map fun i =>
    ({ id := i + 1, claimedBy := none, claimedAt := none } : PrizeToken)) = n
  have h : ∀ l : List Nat, freeCount (l.map fun i =>
      ({ id := i + 1, claimedBy := none, claimedAt := none } : PrizeToken)) = l.length := by
    intro l
    induction l with
    | nil => rfl
    | cons a l ih =>
      rw [List.map_cons, freeCount_cons, ih]
      simp
      omega
  rw [h, List.length_range]



theorem runClaims_count : ∀ (ids : List String) (db : DB) (now : Nat),
    ((runClaims db now ids).1.count true + getRemainingPrizes (runClaims db now ids).2
        = getRemainingPrizes db
      ∧ (runClaims db now ids).1.length = ids.length)
    ∧ (getRemainingPrizes (runClaims db now ids).2 = 0
      ∨ (runClaims db now ids).1.count true = ids.length)
  | [], db, now => by
    constructor
    · exact ⟨by simp [runClaims], rfl⟩
    · right
      simp [runClaims]
  | d :: ds, db, now => by
    rcases Nat.eq_zero_or_pos (getRemainingPrizes db) with hz | hp
    · have heq := tryClaimPrize_of_zero db d now hz
      obtain ⟨⟨ih1, ih2⟩, ih3⟩ := runClaims_count ds db now
      have e1 : (runClaims db now (d :: ds)).1 = false :: (runClaims db now ds).1 := by
        simp [runClaims, heq]
      have e2 : (runClaims db now (d :: ds)).2 = (runClaims db now ds).2 := by
        simp [runClaims, heq]
      rw [e1, e2]
      simp only [List.count_cons, List.length_cons]
      refine ⟨⟨?_, by omega⟩, ?_⟩
      · simp
        omega
      · left
        omega
    · have hpos := tryClaimPrize_of_pos db d now hp
      obtain ⟨⟨ih1, ih2⟩, ih3⟩ := runClaims_count ds (tryClaimPrize db d now).2 now
      have hrem := hpos.2
      have e1 : (runClaims db now (d :: ds)).1
          = true :: (runClaims (tryClaimPrize db d now).2 now ds).1 := by
        simp [runClaims, hpos.1]
      have e2 : (runClaims db now (d :: ds)).2
          = (runClaims (tryClaimPrize db d now).2 now ds).2 := by
        simp [runClaims]
      rw [e1, e2]
      simp only [List.count_cons, List.length_cons]
      refine ⟨⟨?_, by omega⟩, ?_⟩
      · simp
        omega
      · rcases ih3 with h | h
        · left
          exact h
        · right
          simp
          omega

theorem count_bool (l : List Bool) : l.count false + l.count true = l.length := by
  induction l with
  | nil => rfl
  | cons b l ih =>
    cases b
    · simp only [List.count_cons, List.length_cons]
      simp
      omega
    · simp only [List.count_cons, List.length_cons]
      simp
      omega

theorem runClaims_preserves : ∀ (ids : List String) (db : DB) (now i : Nat)
    (t : PrizeToken) (x : String),
    db.prize_tokens[i]? = some t → t.claimedBy = some x →
    (runClaims db now ids).2.prize_tokens[i]? = some t
  | [], db, now, i, t, x, hget, hx => hget
  | d :: ds, db, now, i, t, x, hget, hx => by
    have h1 := tryClaimPrize_preserves db d now i t x hget hx
    exact runClaims_preserves ds (tryClaimPrize db d now).2 now i t x h1 hx



theorem find_on_append {α : Type} (p : α → Bool) :
    ∀ (l1 l2 : List α) (a : α), l1.find? p = some a → (l1 ++ l2).find? p = some a
  | [], _, a, h => by simp [List.find?] at h
  | b :: l1, l2, a, h => by
    cases hb : p b with
    | false =>
      rw [List.cons_append]
      simp only [List.find?, hb] at h ⊢
      exact find_on_append p l1 l2 a h
    | true =>
      rw [List.cons_append]
      simp only [List.find?, hb] at h ⊢
      exact h

theorem part002draw_already (db : DB2) (d : String) (r : ℚ) (row : WinnerRow)
    (hd : ¬ d = "") (h : db.winners.find? (fun w => w.device_id = d) = some row) :
    part002draw db d r =
      (Except.ok { won := row.won, reason := some Reason.already_winner,
                   remaining := MAX_PRIZES - countWinners db }, db) := by
  unfold part002draw
  rw [if_neg hd]
  simp only [h]

theorem part002draw_fresh (db : DB2) (d : String) (r : ℚ) (hd : ¬ d = "")
    (h : db.winners.find? (fun row => row.device_id = d) = none) :
    ∃ body : P2Body, (part002draw db d r).1 = Except.ok body ∧
      (part002draw db d r).2.winners = db.winners ++ [{ device_id := d, won := body.won }] := by
  have hins : ∀ w : Bool, insertWinnerP2 db.winners d w
      = some (db.winners ++ [{ device_id := d, won := w }]) := by
    intro w
    unfold insertWinnerP2
    rw [h]
    rfl
  unfold part002draw
  rw [if_neg hd]
  simp only [h]
  by_cases hcap : MAX_PRIZES ≤ countWinners db
  · rw [if_pos hcap, hins false]
    exact ⟨_, rfl, rfl⟩
  · rw [if_neg hcap, hins (decide (r < winChanceP2))]
    exact ⟨_, rfl, rfl⟩

theorem part002draw_extend (db : DB2) (d : String) (r : ℚ) :
    ∃ ext : List WinnerRow, (part002draw db d r).2.winners = db.winners ++ ext := by
  by_cases hd : d = ""
  · refine ⟨[], ?_⟩
    simp [part002draw, hd]
  · cases h : db.winners.find? (fun w => w.device_id = d) with
    | some row =>
      refine ⟨[], ?_⟩
      rw [part002draw_already db d r row hd h]
      simp
    | none =>
      obtain ⟨body, h1, h2⟩ := part002draw_fresh db d r hd h
      exact ⟨[{ device_id := d, won := body.won }], h2⟩

theorem part002draw_stable (db : DB2) (d d2 : String) (r : ℚ) (row : WinnerRow)
    (h : db.winners.find? (fun w => w.device_id = d) = some row) :
    (part002draw db d2 r).2.winners.find? (fun w => w.device_id = d) = some row := by
  obtain ⟨ext, he⟩ := part002draw_extend db d2 r
  rw [he]
  exact find_on_append _ db.winners ext row h


/-! ### The claims -/

/-- Claim C1: across any sequence of draw requests, the number of requests
that ever receive a result with `won:true` never exceeds the seeded
PrizeToken pool size `n` (the number of token rows created at
initialization). -/
theorem pool_cap (n : Nat) (reqs : List DrawReq) :
    countWins (runDraws (initialDB n) reqs).1 ≤ n := by
  have h := runDraws_wins_le reqs (initialDB n)
  rwa [remaining_initialDB] at h

/-- Claim C2: with exactly 1 free token and `K > 1` claim attempts via
`claimOne` (`tryClaimPrize`), in any serialization exactly one attempt
returns `true` and all others return `false`; the pool ends exhausted (the
successful claim is not lost) and every previously claimed token keeps its
claimant (no token is claimed by two identities). -/
theorem no_double_claim (db : DB) (now : Nat) (ids : List String)
    (h1 : getRemainingPrizes db = 1) (h2 : 1 < ids.length) :
    (runClaims db now ids).1.count true = 1
  ∧ (runClaims db now ids).1.count false = ids.length - 1
  ∧ getRemainingPrizes (runClaims db now ids).2 = 0
  ∧ ∀ (i : Nat) (t : PrizeToken) (x : String),
      db.prize_tokens[i]? = some t → t.claimedBy = some x →
      (runClaims db now ids).2.prize_tokens[i]? = some t := by
  obtain ⟨⟨e1, e2⟩, e3⟩ := runClaims_count ids db now
  have hcnt : (runClaims db now ids).1.count true = 1 := by
    rcases e3 with h | h
    · omega
    · omega
  have hlen := count_bool (runClaims db now ids).1
  refine ⟨hcnt, by omega, by omega, ?_⟩
  intro i t x hget hx
  exact runClaims_preserves ids db now i t x hget hx

/-- Witness for C2 at a concrete input: one free token, two racing
identities, exactly one `true`. -/
theorem no_double_claim_witness :
    (runClaims dbOneFree 0 ["a", "b"]).1.count true = 1 :=
  (no_double_claim dbOneFree 0 ["a", "b"] (by decide) (by decide)).1

/-- Claim C3 (amended: this is the behaviour of `src/server.js` /
`src/unnamed/part_001`; the part_002 variant instead echoes the stored
outcome, which can be `won:true`): for every identity that already has a
WinnerRecord, a draw request returns
`{won:false, reason:"already_winner", remaining: remainingCount()}` and.
leaves the database unchanged, for every random value and rate — so no
random draw, token claim or registry write takes place. -/
theorem already_winner_short_circuit (db : DB) (d : String) (r rate : ℚ) (now : Nat)
    (h : hasWonBefore db d = true) :
    draw db d r rate now =
      ({ won := false, reason := some Reason.already_winner,
         remaining := getRemainingPrizes db }, db) := by
  unfold draw
  rw [if_pos h]

/-- Witness for C3 at a concrete input. -/
theorem already_winner_short_circuit_witness :
    draw dbWithWinner "d1" 0 1 3 =
      ({ won := false, reason := some Reason.already_winner, remaining := 1 },
       dbWithWinner) :=
  already_winner_short_circuit dbWithWinner "d1" 0 1 3 (by decide)

/-- Counterexample to claim C3 as stated: in the `src/unnamed/part_002`
variant, an identity whose stored row has `won = true` receives
`{won:true, reason:"already_winner"}` from a repeat draw — not `won:false`
as the claim requires of every variant. -/
theorem part002_already_winner_echoes_stored_win :
    (part002draw dbP2PriorWinner "d1" 0).1 =
      Except.ok { won := true, reason := some Reason.already_winner, remaining := 9 }
  ∧ ¬ ∃ rem : Nat, (part002draw dbP2PriorWinner "d1" 0).1 =
      Except.ok { won := false, reason := some Reason.already_winner, remaining := rem } := by
  refine ⟨by decide, ?_⟩
  rintro ⟨rem, h⟩
  rw [show (part002draw dbP2PriorWinner "d1" 0).1 =
      Except.ok { won := true, reason := some Reason.already_winner, remaining := 9 }
    from by decide] at h
  simp at h

/-- Claim C4 (amended: this is the behaviour of `src/server.js` /
`src/unnamed/part_001`; the part_002 variant additionally inserts a
`won:false` winners row on a gate loss): a draw request that loses the
random gate (`r >= rate`, identity not a prior winner) returns
`{won:false, remaining: remainingCount()}` with no `reason` field and
leaves the database — every token's `claimedBy` and the winners table —
unchanged, so the remaining count is never decremented by a gate loss. -/
theorem gate_loss_frame (db : DB) (d : String) (r rate : ℚ) (now : Nat)
    (h1 : hasWonBefore db d = false) (h2 : ¬ r < rate) :
    draw db d r rate now =
      ({ won := false, reason := none, remaining := getRemainingPrizes db }, db) := by
  unfold draw
  rw [if_neg (by simp [h1]), if_neg h2]

/-- Witness for C4 at a concrete input. -/
theorem gate_loss_frame_witness :
    draw dbOneFree "d1" 1 0 4 =
      ({ won := false, reason := none, remaining := 1 }, dbOneFree) :=
  gate_loss_frame dbOneFree "d1" 1 0 4 (by decide) (by decide)

/-- Counterexample to claim C4 as stated: in the `src/unnamed/part_002`
variant a fresh identity that loses the gate (`r = 1 >= 0.3`) has a
winners row inserted — the request does not leave the store unchanged. -/
theorem part002_gate_loss_inserts_row :
    (part002draw dbP2Empty "d1" 1).1 =
      Except.ok { won := false, reason := none, remaining := 10 }
  ∧ (part002draw dbP2Empty "d1" 1).2 =
      { winners := [{ device_id := "d1", won := false }] }
  ∧ (part002draw dbP2Empty "d1" 1).2 ≠ dbP2Empty := by
  refine ⟨by decide, by decide, by decide⟩

/-- Claim C5 (amended: this is the behaviour of the `recordWin` insert of
`src/server.js` (`ON CONFLICT DO NOTHING`) and `src/unnamed/part_001`
(`INSERT IGNORE`); the plain `INSERT` of part_002 instead raises a
unique-violation error on a duplicate): for every identity, calling
`recordWin` twice leaves exactly one WinnerRecord for that identity, the
second insertion being a silent no-op. -/
theorem recordWin_idempotent (db : DB) (d : String) (h : db.winners.count d ≤ 1) :
    recordWin (recordWin db d) d = recordWin db d
  ∧ (recordWin (recordWin db d) d).winners.count d = 1 := by
  by_cases hm : db.winners.contains d = true
  · have h1 : recordWin db d = db := by
      unfold recordWin
      rw [if_pos hm]
    constructor
    · rw [h1]
      exact h1
    · rw [h1, h1]
      have hmem : d ∈ db.winners := by simpa using hm
      have hpos : 0 < db.winners.count d := List.count_pos_iff.mpr hmem
      omega
  · have h1 : recordWin db d = { db with winners := db.winners ++ [d] } := by
      unfold recordWin
      rw [if_neg hm]
    have hm2 : ({ db with winners := db.winners ++ [d] } : DB).winners.contains d = true := by
      simp
    have h2 : recordWin { db with winners := db.winners ++ [d] } d
        = { db with winners := db.winners ++ [d] } := by
      unfold recordWin
      rw [if_pos hm2]
    rw [h1, h2]
    refine ⟨rfl, ?_⟩
    have hnotmem : d ∉ db.winners := by simpa using hm
    simp [List.count_append, List.count_eq_zero.mpr hnotmem]

/-- Witness for C5 at a concrete input. -/
theorem recordWin_idempotent_witness :
    recordWin (recordWin dbOneFree "d1") "d1" = recordWin dbOneFree "d1" :=
  (recordWin_idempotent dbOneFree "d1" (by decide)).1

/-- Counterexample to claim C5 as stated: the plain
`INSERT INTO winners(device_id, won)` of `src/unnamed/part_002` (with
`device_id` UNIQUE) errors on the second insertion for the same identity
instead of being a silent no-op. -/
theorem part002_second_insert_errors :
    insertWinnerP2 [] "d1" false = some [{ device_id := "d1", won := false }]
  ∧ insertWinnerP2 [{ device_id := "d1", won := false }] "d1" false = none := by
  refine ⟨by decide, by decide⟩

/-- Claim C6: once a PrizeToken's `claimedBy` is set, it is never cleared or
reassigned by any draw request — the claimed row is preserved verbatim, so
tokens transition free→claimed at most once each. -/
theorem claims_permanent (db : DB) (d : String) (r rate : ℚ) (now : Nat)
    (i : Nat) (t : PrizeToken) (x : String)
    (h1 : db.prize_tokens[i]? = some t) (h2 : t.claimedBy = some x) :
    (draw db d r rate now).2.prize_tokens[i]? = some t := by
  unfold draw
  by_cases hw : hasWonBefore db d = true
  · rw [if_pos hw]
    exact h1
  · rw [if_neg hw]
    by_cases hr : r < rate
    · rw [if_pos hr]
      by_cases hc : (tryClaimPrize db d now).1 = true
      · rw [if_pos hc]
        show (recordWin (tryClaimPrize db d now).2 d).prize_tokens[i]? = some t
        rw [recordWin_tokens]
        exact tryClaimPrize_preserves db d now i t x h1 h2
      · rw [if_neg hc]
        exact tryClaimPrize_preserves db d now i t x h1 h2
    · rw [if_neg hr]
      exact h1

/-- Witness for C6 at a concrete input: a draw by `d2` leaves the token
claimed by `w1` untouched. -/
theorem claims_permanent_witness :
    (draw dbClaimed "d2" 0 1 9).2.prize_tokens[0]? =
      some { id := 1, claimedBy := some "w1", claimedAt := some 0 } :=
  claims_permanent dbClaimed "d2" 0 1 9 0
    { id := 1, claimedBy := some "w1", claimedAt := some 0 } "w1" (by decide) (by decide)

/-- Claim C7: `claimOne` (`tryClaimPrize`) returns `true` iff a free token
existed, in which case it transitions exactly one free token to
claimed-by-identity (all other rows and the winners table unchanged);
it returns `false` iff no free token existed, in which case the state is
unchanged and the draw returns exactly
`{won:false, reason:"no_prizes_left", remaining:0}`. -/
theorem claimOne_spec (db : DB) (d : String) (now : Nat) :
    ((tryClaimPrize db d now).1 = true ↔ 0 < getRemainingPrizes db)
  ∧ ((tryClaimPrize db d now).1 = true →
      ∃ (i : Nat) (t : PrizeToken), db.prize_tokens[i]? = some t ∧ t.claimedBy = none ∧
        (tryClaimPrize db d now).2.prize_tokens[i]? =
          some { t with claimedBy := some d, claimedAt := some now } ∧
        (∀ j, j ≠ i → (tryClaimPrize db d now).2.prize_tokens[j]? = db.prize_tokens[j]?) ∧
        (tryClaimPrize db d now).2.winners = db.winners)
  ∧ ((tryClaimPrize db d now).1 = false ↔ getRemainingPrizes db = 0)
  ∧ ((tryClaimPrize db d now).1 = false → (tryClaimPrize db d now).2 = db)
  ∧ (∀ r rate : ℚ, hasWonBefore db d = false → r < rate → getRemainingPrizes db = 0 →
      draw db d r rate now =
        ({ won := false, reason := some Reason.no_prizes_left, remaining := 0 }, db)) := by
  refine ⟨tryClaimPrize_true_iff db d now, tryClaimPrize_transition db d now,
    tryClaimPrize_false_iff db d now, tryClaimPrize_false_state db d now, ?_⟩
  intro r rate hw hr hz
  have hfalse : (tryClaimPrize db d now).1 = false := (tryClaimPrize_false_iff db d now).mpr hz
  unfold draw
  rw [if_neg (by simp [hw]), if_pos hr, if_neg (by simp [hfalse]),
    tryClaimPrize_false_state db d now hfalse]

/-- Witness for C7 at a concrete input: an exhausted pool yields the exact
`no_prizes_left` response. -/
theorem claimOne_spec_witness :
    draw dbNoTokens "d1" 0 1 0 =
      ({ won := false, reason := some Reason.no_prizes_left, remaining := 0 },
       dbNoTokens) :=
  (claimOne_spec dbNoTokens "d1" 0).2.2.2.2 0 1 rfl (by decide) rfl

/-- Claim C8 (amended: this holds for `src/server.js`, whose claim+register
pair runs inside one `BEGIN`/`COMMIT` transaction; in `src/unnamed/part_001`
there is no transaction, so a failure after the claim leaves a claimed token
with no winner record): any store failure during the claim+register sequence
aborts the whole in-flight sequence, the caller receives the generic
`internal_error`, and the database is exactly as before the request — no
partial state change escapes. -/
theorem tx_rollback_atomic (db : DB) (d : String) (r rate : ℚ) (now : Nat) (f : FailSpec) :
    ((drawServerTx db d r rate now f).1 = Except.error "internal_error" →
      (drawServerTx db d r rate now f).2 = db)
  ∧ (hasWonBefore db d = false → r < rate → 0 < getRemainingPrizes db →
      (f.failClaim = true ∨ f.failInsert = true ∨ f.failCommit = true) →
      drawServerTx db d r rate now f = (Except.error "internal_error", db)) := by
  constructor
  · intro herr
    unfold drawServerTx at herr ⊢
    by_cases hw : hasWonBefore db d = true
    · rw [if_pos hw] at herr
      exact absurd herr (by simp)
    · rw [if_neg hw] at herr ⊢
      by_cases hr : r < rate
      · rw [if_pos hr] at herr ⊢
        by_cases hf1 : f.failClaim = true
        · rw [if_pos hf1]
        · rw [if_neg hf1] at herr ⊢
          by_cases hc : (tryClaimPrize db d now).1 = true
          · rw [if_pos hc] at herr ⊢
            by_cases hf2 : f.failInsert = true
            · rw [if_pos hf2]
            · rw [if_neg hf2] at herr ⊢
              by_cases hf3 : f.failCommit = true
              · rw [if_pos hf3]
              · rw [if_neg hf3] at herr
                exact absurd herr (by simp)
          · rw [if_neg hc] at herr
            exact absurd herr (by simp)
      · rw [if_neg hr] at herr
        exact absurd herr (by simp)
  · intro hw hr hp hf
    have hc : (tryClaimPrize db d now).1 = true := (tryClaimPrize_true_iff db d now).mpr hp
    unfold drawServerTx
    rw [if_neg (by simp [hw]), if_pos hr]
    by_cases hf1 : f.failClaim = true
    · rw [if_pos hf1]
    · rw [if_neg hf1, if_pos hc]
      by_cases hf2 : f.failInsert = true
      · rw [if_pos hf2]
      · rw [if_neg hf2]
        have hf3 : f.failCommit = true := by
          rcases hf with h | h | h
          · exact absurd h hf1
          · exact absurd h hf2
          · exact h
        rw [if_pos hf3]

/-- Witness for C8 at a concrete input: the insert fails inside the
transaction; the response is the generic failure and the token is still
free afterwards. -/
theorem tx_rollback_atomic_witness :
    drawServerTx dbOneFree "d1" 0 1 7
        { failClaim := false, failInsert := true, failCommit := false }
      = (Except.error "internal_error", dbOneFree) :=
  (tx_rollback_atomic dbOneFree "d1" 0 1 7
    { failClaim := false, failInsert := true, failCommit := false }).2
    (by decide) (by decide) (by decide) (by decide)

/-- Counterexample to claim C8 as stated: in `src/unnamed/part_001` the
claim `UPDATE` auto-commits, so when the winners insert then fails the
caller gets the generic failure but the token stays claimed by `d1` with no
winner record — a partial state change escapes. -/
theorem part001_partial_state_escapes :
    drawMysql dbOneFree "d1" 0 1 7
        { failClaim := false, failInsert := true, failCommit := false }
      = (Except.error "internal_error",
         { prize_tokens := [{ id := 1, claimedBy := some "d1", claimedAt := some 7 }],
           winners := [] })
  ∧ ({ prize_tokens := [{ id := 1, claimedBy := some "d1", claimedAt := some 7 }],
       winners := [] } : DB) ≠ dbOneFree := by
  refine ⟨by decide, by decide⟩

/-- Claim C9 (amended: this holds for `src/server.js` and
`src/unnamed/part_001`; the part_002 variant accepts no rate input at all
and uses a fixed 0.3 gate): the rate input is optional, a supplied finite
rate is used as given, and an absent rate falls back to the configured
default win rate, nominally 0.15. -/
theorem rate_default (db : DB) (d : String) (r : ℚ) (now : Nat) (h : ¬ d = "") :
    resolveRate none = DEFAULT_WIN_RATE
  ∧ DEFAULT_WIN_RATE = 15 / 100
  ∧ (∀ q : ℚ, resolveRate (some q) = q)
  ∧ handleDraw db { deviceId := d, winRate := none, r := r, now := now }
      = (Except.ok (draw db d r DEFAULT_WIN_RATE now).1,
         (draw db d r DEFAULT_WIN_RATE now).2) := by
  refine ⟨rfl, by norm_num [DEFAULT_WIN_RATE, Rat.mkRat_eq_div], fun q => rfl, ?_⟩
  unfold handleDraw
  dsimp only
  rw [if_neg h]
  rfl

/-- Witness for C9 at a concrete input. -/
theorem rate_default_witness :
    handleDraw dbOneFree { deviceId := "d1", winRate := none, r := 0, now := 0 }
      = (Except.ok (draw dbOneFree "d1" 0 DEFAULT_WIN_RATE 0).1,
         (draw dbOneFree "d1" 0 DEFAULT_WIN_RATE 0).2) :=
  (rate_default dbOneFree "d1" 0 0 (by decide)).2.2.2

/-- Counterexample to claim C9 as stated: the `src/unnamed/part_002` draw
takes no rate input and its gate is the fixed 0.3, not the configured
default 0.15 — at `r = 1/4` it grants a win although `1/4 >= 0.15` would
lose against the default rate. -/
theorem part002_rate_not_default :
    (part002draw dbP2Empty "d1" (mkRat 1 4)).1 =
      Except.ok { won := true, reason := none, remaining := 9 }
  ∧ ¬ (mkRat 1 4 < DEFAULT_WIN_RATE)
  ∧ winChanceP2 ≠ DEFAULT_WIN_RATE := by
  refine ⟨by decide, by decide, by decide⟩

/-- Claim C10: in the `src/unnamed/part_002` variant, every completed
request from a previously unseen deviceId inserts a winners row recording
its outcome (won or lost); every request from an identity that has a stored
row returns the stored outcome with reason `already_winner` and no state
change; and a stored row survives every later request — so each identity
receives at most one random draw, ever, and a losing identity can never win
afterwards. -/
theorem part002_records_every_outcome :
    (∀ (db : DB2) (d : String) (r : ℚ), ¬ d = "" →
       db.winners.find? (fun row => row.device_id = d) = none →
       ∃ body : P2Body, (part002draw db d r).1 = Except.ok body ∧
         (part002draw db d r).2.winners
           = db.winners ++ [{ device_id := d, won := body.won }])
  ∧ (∀ (db : DB2) (d : String) (r : ℚ) (row : WinnerRow), ¬ d = "" →
       db.winners.find? (fun w => w.device_id = d) = some row →
       part002draw db d r =
         (Except.ok { won := row.won, reason := some Reason.already_winner,
                      remaining := MAX_PRIZES - countWinners db }, db))
  ∧ (∀ (db : DB2) (d d2 : String) (r : ℚ) (row : WinnerRow),
       db.winners.find? (fun w => w.device_id = d) = some row →
       (part002draw db d2 r).2.winners.find? (fun w => w.device_id = d) = some row) :=
  ⟨fun db d r hd h => part002draw_fresh db d r hd h,
   fun db d r row hd h => part002draw_already db d r row hd h,
   fun db d d2 r row h => part002draw_stable db d d2 r row h⟩

/-- Witness for C10 at a concrete input: a repeat request by the stored
winner echoes the stored outcome with reason `already_winner`. -/
theorem part002_records_every_outcome_witness :
    part002draw dbP2PriorWinner "d1" 1 =
      (Except.ok { won := true, reason := some Reason.already_winner, remaining := 9 },
       dbP2PriorWinner) :=
  part002_records_every_outcome.2.1 dbP2PriorWinner "d1" 1
    { device_id := "d1", won := true } (by decide) (by decide)

end Sorteo
